import Mathlib

/-!
Verification of the `pgsu` package (file `pgsu/__init__.py`): a utility that
connects to an existing PostgreSQL cluster as the `postgres` superuser and
executes SQL commands, trying psycopg2 first and falling back to running
`psql` as the `postgres` OS user via `sudo su`.

The development below is a shallow embedding of that module.  External
effects (psycopg2, subprocesses, the OS username, the interactive prompt)
are abstracted into an `Env` record of oracles; everything else is a direct
translation of the Python source.
-/

/-- The connection descriptor (the Python `dsn` dictionary).  The module
always keeps all five keys present; a `none` field models the Python value
`None` (for `host`, also the "unset" case, which the code treats the same
way at every use site via `dict.get`/falsiness). -/
structure DSN where
  host : Option String
  port : Option Nat
  user : Option String
  password : Option String
  database : Option String
deriving DecidableEq

/-- `DEFAULT_DSN` from the source. -/
def DEFAULT_DSN : DSN :=
  { host := some "localhost"
    port := some 5432
    user := some "postgres"
    password := none
    database := some "template1" }

/-- `PostgresConnectionMode` (an `IntEnum` with values 0, 1, 2 in the source). -/
inductive PostgresConnectionMode where
  | DISCONNECTED
  | PSYCOPG
  | PSQL
deriving DecidableEq

/-- Per-call keyword overrides accepted by `PGSU.execute` (`**kwargs`):
`none` means "key not passed", `some v` means "key passed with value `v`"
(where `v` itself may be the Python `None`, i.e. a `none` field value).
Extra non-descriptor keyword arguments are not modelled. -/
structure DSNOverride where
  host : Option (Option String) := none
  port : Option (Option Nat) := none
  user : Option (Option String) := none
  password : Option (Option String) := none
  database : Option (Option String) := none

/-- `kw_copy = self.dsn.copy(); kw_copy.update(kwargs)` — per-key update of a
full descriptor by the provided overrides. -/
def applyOverride (d : DSN) (o : DSNOverride) : DSN :=
  { host := o.host.getD d.host
    port := o.port.getD d.port
    user := o.user.getD d.user
    password := o.password.getD d.password
    database := o.database.getD d.database }

/-- Result of `cursor.execute` in the driver: the cursor's `description`
(`None` for commands producing no result set, e.g. DDL) and the tuples that
`fetchall()` would return. -/
structure Cursor where
  description : Option (List String)
  rows : List (List String)
deriving DecidableEq

/-- Environment of external effects: the psycopg2 driver, the subprocess
runner, and the OS account name reported by `getpass.getuser()`. -/
structure Env where
  /-- Whether `psycopg2.connect(**kwargs)` succeeds for given keyword args. -/
  psycopgConnects : DSN → Bool
  /-- Behaviour of `cursor.execute(command)` on an open connection:
  an `Except.error` models a driver-level exception. -/
  psycoRun : String → DSN → Except String Cursor
  /-- Whether `subprocess.check_output(['sudo', '-V'])` succeeds. -/
  sudoExists : Bool
  /-- `subprocess.check_output(argv)`: raw stdout, or `CalledProcessError`. -/
  checkOutput : List String → Except String String
  /-- `getpass.getuser()`. -/
  osUser : String

/-- `escape_for_bash` replacement payload: the five characters `'"'"'`
substituted for each single quote. -/
def escapeQuoteSeq : List Char := ['\'', '"', '\'', '"', '\'']

/-- Character-level form of `str_to_escape.replace("'", "'\"'\"'")`: the
pattern is a single character, so the replacement is a per-character
expansion. -/
def escapeChars : List Char → List Char
  | [] => []
  | c :: cs => (if c = '\'' then escapeQuoteSeq else [c]) ++ escapeChars cs

/-- `escape_for_bash`: substitute every single quote by `'"'"'` and wrap the
result in single quotes. -/
def escape_for_bash (s : String) : String :=
  "'" ++ String.mk (escapeChars s.data) ++ "'"

/-- Reverse of the quote-substitution rule, character level: each
left-to-right occurrence of the five-character sequence `'"'"'` collapses
back to a single quote (spec §6, shell-escaping contract, read backwards). -/
def unescapeChars : List Char → List Char
  | '\'' :: '"' :: '\'' :: '"' :: '\'' :: rest => '\'' :: unescapeChars rest
  | c :: cs => c :: unescapeChars cs
  | [] => []

/-- Reverse of `escape_for_bash`: strip the enclosing single quotes, then
undo the quote substitution. -/
def unescape_for_bash (s : String) : String :=
  String.mk (unescapeChars ((s.data.drop 1).dropLast))

theorem unescapeChars_cons_ne (c : Char) (h : c ≠ '\'') (cs : List Char) :
    unescapeChars (c :: cs) = c :: unescapeChars cs := by
  rw [unescapeChars.eq_def]
  split
  all_goals simp_all

theorem unescapeChars_escapeChars (l : List Char) :
    unescapeChars (escapeChars l) = l := by
  induction l with
  | nil => rfl
  | cons c cs ih =>
    by_cases h : c = '\''
    · subst h
      simp [escapeChars, escapeQuoteSeq, unescapeChars, ih]
    · simp only [escapeChars, if_neg h, List.singleton_append]
      rw [unescapeChars_cons_ne c h, ih]

theorem unescape_for_bash_escape_for_bash (s : String) :
    unescape_for_bash (escape_for_bash s) = s := by
  have h1 : (escape_for_bash s).data = '\'' :: (escapeChars s.data ++ ['\'']) := by
    simp [escape_for_bash, String.data_append]
  rw [unescape_for_bash, h1]
  simp only [List.drop_succ_cons, List.drop_zero, List.dropLast_concat,
    unescapeChars_escapeChars]

/-- The `sudo su psql` command line built by `_execute_psql`, kept as its
three source-level pieces `sudo_cmd`, `su_cmd`, `psql_cmd`. -/
structure PsqlInvocation where
  sudo_cmd : List String
  su_cmd : List String
  psql_cmd : List String
deriving DecidableEq

/-- `sudo_su_psql = sudo_cmd + su_cmd + psql_cmd`. -/
def PsqlInvocation.argv (v : PsqlInvocation) : List String :=
  v.sudo_cmd ++ v.su_cmd ++ v.psql_cmd

/-- The `**kwargs` dictionary received by `_execute_psql`.  At both call
sites in the module (`PGSU.execute` and `_try_subcmd`) the splatted
dictionary contains exactly the descriptor keys other than `user` (`user`
is captured by the named parameter), all present, possibly with value
`None`.  The extra `stderr` key passed by `_try_subcmd` only reaches
`subprocess.check_output` and is not modelled. -/
structure PsqlKwargs where
  database : Option String
  password : Option String
  host : Option String
  port : Option Nat
deriving DecidableEq

/-- Python truthiness of an optional string (`None` and `''` are falsy). -/
def truthyStr (o : Option String) : Bool := !(o.getD "" == "")

/-- `_execute_psql(command, user='postgres', quiet=True, interactive=False,
**kwargs)`: build the option string from the popped keys, build the
`sudo su psql` command line and run it, splitting the decoded output into
non-empty lines.  Returns the result together with the invocation built. -/
def execute_psql (env : Env) (command : String) ( user : Option String)
    (quiet : Bool) (interactive : Bool) (kwargs : PsqlKwargs) :
    Except String (List String) × PsqlInvocation :=
  let option_str := ""
  let database := kwargs.database
  let option_str := if truthyStr database
    then option_str ++ "-d " ++ database.getD "" else option_str
  -- kwargs.pop('password', None): the password is dropped, never forwarded
  let host := kwargs.host
  let option_str := if truthyStr host && !(host.getD "" == "localhost")
    then option_str ++ " -h " ++ host.getD "" else option_str
  let port := kwargs.port
  let option_str := if !(port.getD 0 == 0)
    then option_str ++ " -p " ++ toString (port.getD 0) else option_str
  -- user = kwargs.pop('user', 'postgres'): the kwargs dictionary can never
  -- contain the key 'user' here, because that key was bound to the named
  -- parameter by the **-splat at both call sites, so the pop always
  -- returns the default 'postgres', shadowing the parameter.
  let user := "postgres"
  let sudo_cmd := if interactive then ["sudo"] else ["sudo", "-n"]
  let su_cmd := ["su", user, "-c"]
  let psql_cmd := ["psql " ++ option_str ++ " -tc " ++ escape_for_bash command]
  let inv : PsqlInvocation := ⟨sudo_cmd, su_cmd, psql_cmd⟩
  let res : Except String (List String) :=
    match env.checkOutput inv.argv with
    | .error e => .error e
    | .ok raw => .ok (((raw.trim).splitOn "\n").filter (fun i => i != ""))
  (res, inv)

/-- `_sudo_exists`: whether `sudo -V` runs cleanly (exceptions swallowed). -/
def sudo_exists (env : Env) : Bool := env.sudoExists

/-- View of a full descriptor as the `**kwargs` dictionary handed to
`_execute_psql` (every key except `user`, which binds the named parameter). -/
def DSN.psqlKwargs (d : DSN) : PsqlKwargs :=
  { database := d.database, password := d.password, host := d.host, port := d.port }

/-- `_try_subcmd(**kwargs)`: run `_execute_psql(r'\q', **kwargs)` and report
whether it exited cleanly (a `CalledProcessError` is swallowed). -/
def try_subcmd (env : Env) (interactive : Bool) (quiet : Bool) (dsn : DSN) : Bool :=
  (execute_psql env "\\q" dsn.user quiet interactive dsn.psqlKwargs).1.isOk

/-- `_try_connect_psycopg(**kwargs)`: True iff `psycopg2.connect(**kwargs)`
succeeds (any exception is swallowed and turned into False). -/
def try_connect_psycopg (env : Env) (kwargs : DSN) : Bool :=
  env.psycopgConnects kwargs

/-- Lines 303–309 of the source: `output = None; if cursor.description is
not None: output = cursor.fetchall()`. -/
def psycoOutput (cur : Cursor) : Option (List (List String)) :=
  match cur.description with
  | none => none
  | some _ => some cur.rows

/-- Lines 300–301 of the source: `if kwargs.get('host') is None:
kwargs['host'] = 'localhost'` — the keyword arguments actually handed to
`psycopg2.connect` by `_execute_psyco`. -/
def psycoConnectKwargs (kwargs : DSN) : DSN :=
  if kwargs.host = none then { kwargs with host := some "localhost" } else kwargs

/-- Observable protocol-level events of one `_execute_psyco` call. -/
inductive PGEvent where
  /-- `psycopg2.connect` returned a live connection. -/
  | connect
  /-- `cursor.execute(command)` was invoked. -/
  | execCmd
  /-- The `with` blocks were exited (psycopg2 commits or rolls back the
  transaction here; the `with` statement does not close the connection). -/
  | exitBlock
  /-- `conn.close()` was reached. -/
  | close
deriving DecidableEq

/-- `_execute_psyco(command, **kwargs)`.  Control flow of the source:
the `with psycopg2.connect(...) as conn` block only ends the transaction on
exit; the explicit `conn.close()` on line 312 sits after the block, so it
is reached only when `cursor.execute` did not raise.  A driver error
propagates to the caller.  Returns the result, the event trace, and the
keyword arguments handed to `psycopg2.connect`. -/
def execute_psyco (env : Env) (command : String) (kwargs : DSN) :
    Except String (Option (List (List String))) × List PGEvent × DSN :=
  let kwargs := psycoConnectKwargs kwargs
  if env.psycopgConnects kwargs then
    match env.psycoRun command kwargs with
    | .ok cur =>
        (.ok (psycoOutput cur), [.connect, .execCmd, .exitBlock, .close], kwargs)
    | .error e =>
        (.error e, [.connect, .execCmd, .exitBlock], kwargs)
  else
    (.error "could not connect", [], kwargs)

/-- The candidate `user` values probed by `determine_setup`, line 143:
`set([dsn.get('user'), None, getpass.getuser()])`.  A Python set
de-duplicates; its enumeration order is unspecified, so the model fixes one
de-duplicated enumeration of the three inserted values. -/
def candidate_users (user : Option String) (osUser : String) : List (Option String) :=
  ([user, none, some osUser]).dedup

/-- The probe loop of `determine_setup`, lines 143–148: successively set
`dsn['user']` to each candidate and try to connect; stop at the first
success.  Returns the local `dsn` as it stands after the loop together with
the success flag (on failure the `user` field holds the last candidate). -/
def probeCandidates (tryConnect : DSN → Bool) (dsn : DSN) :
    List (Option String) → DSN × Bool
  | [] => (dsn, false)
  | u :: us =>
    let dsn' := { dsn with user := u }
    if tryConnect dsn' then (dsn', true) else probeCandidates tryConnect dsn' us

/-- The instance attributes of the `PGSU` class. -/
structure PGSU where
  interactive : Bool
  quiet : Bool
  connection_mode : PostgresConnectionMode
  /-- `setup_fail_callback`: `prompt_db_info` when interactive, else `None`;
  replaceable via `set_setup_fail_callback`.  Called as
  `callback(self.interactive, self.dsn)` and returns a new descriptor. -/
  setup_fail_callback : Option (Bool → DSN → DSN)
  setup_fail_counter : Nat
  setup_max_tries : Nat
  dsn : DSN

/-- Payload of a successful `PGSU.execute` call: psycopg2 rows (possibly
the `None` marker) or psql output lines, depending on the mode taken. -/
inductive ExecPayload where
  | psycoRows (r : Option (List (List String)))
  | psqlLines (ls : List String)
deriving DecidableEq

/-- Observable outcome of one `PGSU.execute` call: the returned value or
raised error, plus the protocol events / connect kwargs of a psycopg2 call
and the subprocess invocation of a psql call, when those paths ran. -/
structure ExecCall where
  result : Except String ExecPayload
  psycoEvents : List PGEvent := []
  psycoConnectArgs : Option DSN := none
  psqlInv : Option PsqlInvocation := none

/-- `PGSU.execute(command, **kwargs)`: merge the stored descriptor with the
per-call overrides and dispatch on the committed connection mode; raise
`ValueError('Could not connect to postgres.')` when disconnected.  The
method never assigns to `self`, so the state is returned unchanged. -/
def PGSU.execute (env : Env) (self : PGSU) (command : String) (kwargs : DSNOverride) :
    ExecCall × PGSU :=
  let kw_copy := applyOverride self.dsn kwargs
  match self.connection_mode with
  | .PSYCOPG =>
    let r := execute_psyco env command kw_copy
    ({ result := r.1.map ExecPayload.psycoRows
       psycoEvents := r.2.1
       psycoConnectArgs := some r.2.2 }, self)
  | .PSQL =>
    -- kw_copy carries no 'quiet'/'interactive' keys, so _execute_psql runs
    -- with its defaults quiet=True, interactive=False.
    let r := execute_psql env command kw_copy.user true false kw_copy.psqlKwargs
    ({ result := r.1.map ExecPayload.psqlLines
       psqlInv := some r.2 }, self)
  | .DISCONNECTED =>
    ({ result := .error "Could not connect to postgres." }, self)

/-- One pass of `determine_setup` without the retry tail, lines 136–164:
the candidate probe loop; on failure the subprocess fallback guarded by
`_sudo_exists()`; on total failure `setup_fail_counter += 1`.  Returns the
success flag and the updated object. -/
def PGSU.probe_round (env : Env) (self : PGSU) : Bool × PGSU :=
  -- dsn = self.dsn.copy(); loop over set([dsn.get('user'), None, getuser()])
  let pr := probeCandidates (try_connect_psycopg env) self.dsn
    (candidate_users self.dsn.user env.osUser)
  if pr.2 then
    (true, { self with dsn := pr.1, connection_mode := .PSYCOPG })
  else if sudo_exists env && try_subcmd env self.interactive self.quiet pr.1 then
    (true, { self with dsn := pr.1, connection_mode := .PSQL })
  else
    (false, { self with setup_fail_counter := self.setup_fail_counter + 1 })

/-- A failed probe round only increments the fail counter. -/
theorem probe_round_failure (env : Env) (self : PGSU) :
    (PGSU.probe_round env self).1 = false →
    (PGSU.probe_round env self).2
      = { self with setup_fail_counter := self.setup_fail_counter + 1 } := by
  simp only [PGSU.probe_round]
  split_ifs <;> simp

/-- `PGSU.determine_setup` together with `_no_setup_detected` (inlined at
the tail: the Python pair is mutually recursive with exactly this call
structure).  Returns the success flag, the updated object state, and the
number of invocations of the fail callback. -/
def PGSU.determine_setup (env : Env) (self : PGSU) : Bool × PGSU × Nat :=
  match hpr : PGSU.probe_round env self with
  | (true, s) => (true, s, 0)
  | (false, s) =>
    -- _no_setup_detected: warn, then retry through the callback if any
    match s.setup_fail_callback with
    | some cb =>
      if s.setup_fail_counter ≤ s.setup_max_tries then
        -- self.dsn = self.setup_fail_callback(self.interactive, self.dsn)
        -- return self.determine_setup()
        let rr := PGSU.determine_setup env { s with dsn := cb s.interactive s.dsn }
        (rr.1, rr.2.1, rr.2.2 + 1)
      else (false, s, 0)
    | none => (false, s, 0)
termination_by self.setup_max_tries + 1 - self.setup_fail_counter
decreasing_by
  have hf := probe_round_failure env self (by simp [hpr])
  rw [hpr] at hf
  simp only at hf
  subst hf
  rename_i hle
  dsimp only at hle ⊢
  omega

/-- Unfolding lemma: a successful probe round commits immediately. -/
theorem determine_setup_of_probe_true (env : Env) (self s : PGSU)
    (h : PGSU.probe_round env self = (true, s)) :
    PGSU.determine_setup env self = (true, s, 0) := by
  rw [PGSU.determine_setup]
  split
  all_goals rename_i s' hpr
  · rw [h] at hpr
    injection hpr with h1 h2
    simp_all
  · rw [h] at hpr
    simp_all

/-- Unfolding lemma: a failed probe round falls through to
`_no_setup_detected`. -/
theorem determine_setup_of_probe_false (env : Env) (self s : PGSU)
    (h : PGSU.probe_round env self = (false, s)) :
    PGSU.determine_setup env self =
      (match s.setup_fail_callback with
       | some cb =>
         if s.setup_fail_counter ≤ s.setup_max_tries then
           let rr := PGSU.determine_setup env { s with dsn := cb s.interactive s.dsn }
           (rr.1, rr.2.1, rr.2.2 + 1)
         else (false, s, 0)
       | none => (false, s, 0)) := by
  rw [PGSU.determine_setup]
  split
  all_goals rename_i s' hpr
  · rw [h] at hpr
    simp_all
  · rw [h] at hpr
    injection hpr with h1 h2
    simp_all

/-- The fail callback is invoked at most
`setup_max_tries - setup_fail_counter` times during one resolution. -/
theorem determine_setup_calls_le (env : Env) (self : PGSU) :
    (PGSU.determine_setup env self).2.2
      ≤ self.setup_max_tries - self.setup_fail_counter := by
  suffices H : ∀ n self, self.setup_max_tries + 1 - self.setup_fail_counter = n →
      (PGSU.determine_setup env self).2.2
        ≤ self.setup_max_tries - self.setup_fail_counter from H _ self rfl
  intro n
  induction n using Nat.strong_induction_on with
  | _ n ih =>
    intro self hn
    rcases hpr : PGSU.probe_round env self with ⟨b, s⟩
    cases b
    · have hf := probe_round_failure env self (by simp [hpr])
      rw [hpr] at hf
      simp only at hf
      subst hf
      rw [determine_setup_of_probe_false env self _ hpr]
      cases hcb : self.setup_fail_callback with
      | none => simp
      | some cb =>
        simp only [hcb]
        by_cases hle : self.setup_fail_counter + 1 ≤ self.setup_max_tries
        · simp only [hle, if_true, if_pos]
          have hrec := ih (self.setup_max_tries + 1 - (self.setup_fail_counter + 1))
            (by omega) { self with
              setup_fail_counter := self.setup_fail_counter + 1
              dsn := cb self.interactive self.dsn } rfl
          rw [hcb] at hrec
          simp only at hrec ⊢
          omega
        · simp [hle]
    · rw [determine_setup_of_probe_true env self s hpr]
      simp

/-- When resolution fails, the connection mode is whatever it was before
the call, and the fail counter has been incremented once per failed probe
run (the number of callback invocations plus one). -/
theorem determine_setup_false_state (env : Env) (self : PGSU) :
    (PGSU.determine_setup env self).1 = false →
    (PGSU.determine_setup env self).2.1.connection_mode = self.connection_mode ∧
    (PGSU.determine_setup env self).2.1.setup_fail_counter
      = self.setup_fail_counter + (PGSU.determine_setup env self).2.2 + 1 := by
  suffices H : ∀ n self, self.setup_max_tries + 1 - self.setup_fail_counter = n →
      (PGSU.determine_setup env self).1 = false →
      (PGSU.determine_setup env self).2.1.connection_mode = self.connection_mode ∧
      (PGSU.determine_setup env self).2.1.setup_fail_counter
        = self.setup_fail_counter + (PGSU.determine_setup env self).2.2 + 1 from
    H _ self rfl
  intro n
  induction n using Nat.strong_induction_on with
  | _ n ih =>
    intro self hn
    rcases hpr : PGSU.probe_round env self with ⟨b, s⟩
    cases b
    · have hf := probe_round_failure env self (by simp [hpr])
      rw [hpr] at hf
      simp only at hf
      subst hf
      rw [determine_setup_of_probe_false env self _ hpr]
      cases hcb : self.setup_fail_callback with
      | none => simp
      | some cb =>
        simp only [hcb]
        by_cases hle : self.setup_fail_counter + 1 ≤ self.setup_max_tries
        · simp only [hle, if_true, if_pos]
          intro hfalse
          have hrec := ih (self.setup_max_tries + 1 - (self.setup_fail_counter + 1))
            (by omega) { self with
              setup_fail_counter := self.setup_fail_counter + 1
              dsn := cb self.interactive self.dsn } rfl
          rw [hcb] at hrec
          simp only at hrec hfalse ⊢
          rcases hrec hfalse with ⟨hmode, hcount⟩
          exact ⟨hmode, by omega⟩
        · simp [hle]
    · rw [determine_setup_of_probe_true env self s hpr]
      simp



/-! ### Concrete fixtures used by the witnesses and counterexamples -/

/-- An environment in which psycopg2 never connects, `sudo` is available,
every subprocess exits cleanly with empty output, and the OS user is
`bob`. -/
def envNoPsyco : Env :=
  { psycopgConnects := fun _ => false
    psycoRun := fun _ _ => .error "no driver"
    sudoExists := true
    checkOutput := fun _ => .ok ""
    osUser := "bob" }

/-- An environment in which psycopg2 connects and a query returns a
one-column, one-row result set. -/
def envPsyco : Env :=
  { psycopgConnects := fun _ => true
    psycoRun := fun _ _ => .ok { description := some ["?column?"], rows := [["1"]] }
    sudoExists := false
    checkOutput := fun _ => .error "no subprocess"
    osUser := "bob" }

/-- An environment in which psycopg2 connects but executing any statement
raises a driver-level error. -/
def envPsycoErr : Env :=
  { psycopgConnects := fun _ => true
    psycoRun := fun _ _ => .error "ProgrammingError: syntax error"
    sudoExists := false
    checkOutput := fun _ => .error "no subprocess"
    osUser := "bob" }

/-- A freshly constructed session whose descriptor names the user `alice`,
prior to any successful resolution. -/
def pgsuAlice : PGSU :=
  { interactive := false
    quiet := true
    connection_mode := .DISCONNECTED
    setup_fail_callback := none
    setup_fail_counter := 0
    setup_max_tries := 1
    dsn := { DEFAULT_DSN with user := some "alice" } }

/-- A session committed to the direct (psycopg2) mode. -/
def pgsuDirect : PGSU := { pgsuAlice with connection_mode := .PSYCOPG }

/-- A session committed to the subprocess (psql) mode. -/
def pgsuSub : PGSU := { pgsuAlice with connection_mode := .PSQL }

/-- A disconnected session with a different descriptor than `pgsuAlice`. -/
def pgsuBobDisc : PGSU := { pgsuAlice with dsn := { DEFAULT_DSN with user := some "bob" } }

/-- A descriptor whose `host` attribute is unset. -/
def dsnNoHost : DSN := { DEFAULT_DSN with host := none }

/-! ### The claims -/

/-- C1 (counterexample): with the descriptor's `user` equal to the unset
sentinel `None` and OS user `bob`, the candidate set probed is
`{None, 'bob'}`: it has two elements, not one — the OS-reported username is
always inserted, so the claimed singleton collapse fails. -/
theorem C1_counterexample : (candidate_users none "bob").length ≠ 1 := by
  decide

/-- C1 (amended): the candidate set probed by `determine_setup` contains the
descriptor's user U exactly once and the unset value `None` exactly once
(idempotent de-duplication), and always — not optionally — also contains the
OS-reported current username; when U is the unset sentinel the U/`None` pair
collapses to a single entry, so the candidate set has exactly two elements
(`None` and the OS username), not one. -/
theorem C1_candidates_amended (u : Option String) (osUser : String) :
    (candidate_users u osUser).Nodup
    ∧ u ∈ candidate_users u osUser
    ∧ none ∈ candidate_users u osUser
    ∧ some osUser ∈ candidate_users u osUser
    ∧ (u = none → (candidate_users u osUser).length = 2) := by
  refine ⟨List.nodup_dedup _, ?_, ?_, ?_, ?_⟩
  · rw [candidate_users, List.mem_dedup]
    simp
  · rw [candidate_users, List.mem_dedup]
    simp
  · rw [candidate_users, List.mem_dedup]
    simp
  · intro hu
    subst hu
    rw [candidate_users]
    rw [List.dedup_cons_of_mem (by simp)]
    rw [List.dedup_cons_of_not_mem (by simp)]
    simp

/-- C1 (witness): the amended statement evaluated at `u = None`,
`osUser = 'alice'`. -/
theorem C1_witness :
    (candidate_users none "alice").Nodup
    ∧ none ∈ candidate_users none "alice"
    ∧ some "alice" ∈ candidate_users none "alice"
    ∧ (candidate_users none "alice").length = 2 :=
  ⟨(C1_candidates_amended none "alice").1,
   (C1_candidates_amended none "alice").2.2.1,
   (C1_candidates_amended none "alice").2.2.2.1,
   (C1_candidates_amended none "alice").2.2.2.2 rfl⟩

/-- C2 (code bug): when the statement raises a driver-level error,
`_execute_psyco` propagates the error but never reaches the
`conn.close()` on line 312 — the `with` block only ends the transaction —
so the connection is not released on that exit path; on the non-raising
path `conn.close()` is reached. -/
theorem C2_connection_not_closed_on_error :
    (execute_psyco envPsycoErr "INVALID SQL" DEFAULT_DSN).1
      = Except.error "ProgrammingError: syntax error"
    ∧ PGEvent.close ∉ (execute_psyco envPsycoErr "INVALID SQL" DEFAULT_DSN).2.1
    ∧ PGEvent.close ∈ (execute_psyco envPsyco "SELECT 1" DEFAULT_DSN).2.1 := by
  refine ⟨rfl, by decide, by decide⟩

/-- C5: `escape_for_bash` wraps its input in single quotes with every
literal single quote replaced by the sequence `'"'"'`; reversing the
substitution rule on the escaped form recovers the input exactly, and
`O'Brien` escapes to `'O'"'"'Brien'`. -/
theorem C5_escape_roundtrip :
    (∀ s : String, unescape_for_bash (escape_for_bash s) = s)
    ∧ escape_for_bash "O'Brien" = "'O'\"'\"'Brien'" :=
  ⟨unescape_for_bash_escape_for_bash, by decide⟩

/-- Helper: `PGSU.execute` never assigns to the object, so the state it
hands back is the one it received. -/
theorem execute_state_unchanged (env : Env) (self : PGSU) (command : String)
    (ov : DSNOverride) : (PGSU.execute env self command ov).2 = self := by
  cases hm : self.connection_mode <;> simp [PGSU.execute, hm]

/-- C4: once a mode in {PSYCOPG, PSQL} is committed, `execute` (with any
command and overrides) leaves the committed mode unchanged and never
downgrades it to DISCONNECTED. -/
theorem C4_mode_sticky (env : Env) (self : PGSU) (command : String)
    (ov : DSNOverride)
    (h : self.connection_mode ≠ PostgresConnectionMode.DISCONNECTED) :
    (PGSU.execute env self command ov).2.connection_mode = self.connection_mode
    ∧ (PGSU.execute env self command ov).2.connection_mode
        ≠ PostgresConnectionMode.DISCONNECTED := by
  rw [execute_state_unchanged]
  exact ⟨rfl, h⟩

/-- C4 (witness): the theorem applied to a session committed to the direct
mode. -/
theorem C4_witness :
    (PGSU.execute envPsyco pgsuDirect "SELECT 1" {}).2.connection_mode
      = pgsuDirect.connection_mode
    ∧ (PGSU.execute envPsyco pgsuDirect "SELECT 1" {}).2.connection_mode
        ≠ PostgresConnectionMode.DISCONNECTED :=
  C4_mode_sticky envPsyco pgsuDirect "SELECT 1" {} (by decide)

/-- C6 (counterexample): the error raised by `execute` in DISCONNECTED mode
is the fixed message `ValueError('Could not connect to postgres.')`; two
sessions with different descriptors raise the very same error, so the error
does not identify the descriptor that was attempted. -/
theorem C6_counterexample :
    pgsuAlice.dsn ≠ pgsuBobDisc.dsn
    ∧ (PGSU.execute envNoPsyco pgsuAlice "CREATE DATABASE d" {}).1.result
      = (PGSU.execute envNoPsyco pgsuBobDisc "CREATE DATABASE d" {}).1.result := by
  exact ⟨by decide, rfl⟩

/-- C6 (amended): calling `execute` while the mode is DISCONNECTED always
raises `ValueError('Could not connect to postgres.')` — it never silently
no-ops and never returns a value — but the fixed message does not identify
the descriptor that was attempted. -/
theorem C6_disconnected_error_amended (env : Env) (self : PGSU)
    (command : String) (ov : DSNOverride)
    (h : self.connection_mode = PostgresConnectionMode.DISCONNECTED) :
    (PGSU.execute env self command ov).1.result
      = Except.error "Could not connect to postgres." := by
  simp [PGSU.execute, h]

/-- C6 (witness): the amended statement on a concrete disconnected
session. -/
theorem C6_witness :
    (PGSU.execute envNoPsyco pgsuAlice "SELECT 1" {}).1.result
      = Except.error "Could not connect to postgres." :=
  C6_disconnected_error_amended envNoPsyco pgsuAlice "SELECT 1" {} rfl

/-- C8: in the direct strategy, a command with a result set returns exactly
the fetched tuples (so the row count matches), a command with no result set
(`cursor.description is None`) returns the `None` marker, and the marker is
distinguishable from an empty result set. -/
theorem C8_result_marker (env : Env) (command : String) (kw : DSN)
    (cur : Cursor)
    (hc : env.psycopgConnects (psycoConnectKwargs kw) = true)
    (hr : env.psycoRun command (psycoConnectKwargs kw) = Except.ok cur) :
    (execute_psyco env command kw).1 = Except.ok (psycoOutput cur)
    ∧ (cur.description = none → (execute_psyco env command kw).1 = Except.ok none)
    ∧ (∀ d, cur.description = some d →
        (execute_psyco env command kw).1 = Except.ok (some cur.rows))
    ∧ (∀ d : List String,
        psycoOutput { description := some d, rows := [] }
          ≠ psycoOutput { description := none, rows := [] }) := by
  have hmain : (execute_psyco env command kw).1 = Except.ok (psycoOutput cur) := by
    simp [execute_psyco, hc, hr]
  refine ⟨hmain, ?_, ?_, ?_⟩
  · intro hd
    rw [hmain, psycoOutput, hd]
  · intro d hd
    rw [hmain, psycoOutput, hd]
  · intro d
    simp [psycoOutput]

/-- C8 (witness): a result-set command under `envPsyco`. -/
theorem C8_witness :
    (execute_psyco envPsyco "SELECT 1" DEFAULT_DSN).1
      = Except.ok (psycoOutput { description := some ["?column?"], rows := [["1"]] })
    ∧ (∀ d, ({ description := some ["?column?"], rows := [["1"]] } : Cursor).description = some d →
        (execute_psyco envPsyco "SELECT 1" DEFAULT_DSN).1
          = Except.ok (some ({ description := some ["?column?"], rows := [["1"]] } : Cursor).rows)) :=
  ⟨(C8_result_marker envPsyco "SELECT 1" DEFAULT_DSN
      { description := some ["?column?"], rows := [["1"]] } rfl rfl).1,
   (C8_result_marker envPsyco "SELECT 1" DEFAULT_DSN
      { description := some ["?column?"], rows := [["1"]] } rfl rfl).2.2.1⟩

/-- Helper: the keyword arguments `_execute_psyco` hands to
`psycopg2.connect` are always the host-defaulted ones. -/
theorem execute_psyco_connect_args (env : Env) (command : String) (kw : DSN) :
    (execute_psyco env command kw).2.2 = psycoConnectKwargs kw := by
  unfold execute_psyco
  by_cases h : env.psycopgConnects (psycoConnectKwargs kw)
  · simp only [h, if_true]
    rcases env.psycoRun command (psycoConnectKwargs kw) with e | c <;> rfl
  · simp [h]

/-- C9 (counterexample): a descriptor with `host` unset is not handed to
the driver with the attribute omitted — `_execute_psyco` replaces it with
the literal `'localhost'` the caller never supplied. -/
theorem C9_counterexample :
    dsnNoHost.host = none
    ∧ (execute_psyco envPsyco "SELECT 1" dsnNoHost).2.2.host ≠ none
    ∧ (execute_psyco envPsyco "SELECT 1" dsnNoHost).2.2.host = some "localhost" := by
  refine ⟨rfl, by decide, by decide⟩

/-- C9 (amended): when the merged descriptor's `host` is unset,
`_execute_psyco` deliberately substitutes the literal `'localhost'` before
handing the keyword arguments to the driver (to sidestep peer
authentication); the other attributes are forwarded unchanged. -/
theorem C9_host_localhost_amended (env : Env) (command : String) (kw : DSN)
    (h : kw.host = none) :
    (execute_psyco env command kw).2.2 = { kw with host := some "localhost" } := by
  rw [execute_psyco_connect_args, psycoConnectKwargs, if_pos h]

/-- C9 (witness): the amended statement on a concrete host-less
descriptor. -/
theorem C9_witness :
    (execute_psyco envPsyco "CREATE DATABASE d" dsnNoHost).2.2
      = { dsnNoHost with host := some "localhost" } :=
  C9_host_localhost_amended envPsyco "CREATE DATABASE d" dsnNoHost rfl

/-- An environment in which nothing works: no driver, no `sudo`, failing
subprocesses. -/
def envFail : Env :=
  { psycopgConnects := fun _ => false
    psycoRun := fun _ _ => .error "no driver"
    sudoExists := false
    checkOutput := fun _ => .error "CalledProcessError"
    osUser := "bob" }

/-- Helper: the `su` piece of every `_execute_psql` invocation is the fixed
`['su', 'postgres', '-c']` — `kwargs.pop('user', 'postgres')` always yields
the default because the splatted dictionary never carries a `user` key. -/
theorem execute_psql_su_cmd (env : Env) (command : String) (u : Option String)
    (q i : Bool) (kw : PsqlKwargs) :
    (execute_psql env command u q i kw).2.su_cmd = ["su", "postgres", "-c"] := rfl

/-- C3 (counterexample): with descriptor user `alice`, OS user `bob`, all
direct probes failing and the subprocess probe succeeding, `determine_setup`
commits mode PSQL with a descriptor whose `user` is `bob` — the last probed
candidate — not the superuser name `postgres`: the resolver never forces
`user` to `postgres`. -/
theorem C3_counterexample :
    (PGSU.determine_setup envNoPsyco pgsuAlice).1 = true
    ∧ (PGSU.determine_setup envNoPsyco pgsuAlice).2.1.connection_mode
        = PostgresConnectionMode.PSQL
    ∧ (PGSU.determine_setup envNoPsyco pgsuAlice).2.1.dsn.user ≠ some "postgres" := by
  have h := determine_setup_of_probe_true envNoPsyco pgsuAlice
    { pgsuAlice with
        dsn := { DEFAULT_DSN with user := some "bob" }
        connection_mode := .PSQL } rfl
  rw [h]
  exact ⟨rfl, rfl, by decide⟩

/-- C3 (amended): when the direct probe exhausts all candidates and `sudo`
is available and the `\q` no-op run through the subprocess strategy exits
cleanly, `determine_setup` commits mode = PSQL together with the descriptor
as the probe loop left it (its `user` is the last direct-probe candidate —
the resolver does not force it to `postgres`); it is the psql subprocess
invocation itself that always runs as OS user `postgres`, regardless of the
descriptor. -/
theorem C3_subprocess_fallback_amended (env : Env) (self : PGSU)
    (pr : DSN × Bool)
    (hpr : probeCandidates (try_connect_psycopg env) self.dsn
        (candidate_users self.dsn.user env.osUser) = pr)
    (hfail : pr.2 = false) (hsudo : sudo_exists env = true)
    (hsub : try_subcmd env self.interactive self.quiet pr.1 = true) :
    PGSU.determine_setup env self
      = (true,
         { self with dsn := pr.1, connection_mode := PostgresConnectionMode.PSQL },
         0)
    ∧ (execute_psql env "\\q" pr.1.user self.quiet self.interactive
        pr.1.psqlKwargs).2.su_cmd = ["su", "postgres", "-c"] := by
  constructor
  · apply determine_setup_of_probe_true
    simp [PGSU.probe_round, hpr, hfail, hsudo, hsub]
  · exact execute_psql_su_cmd env "\\q" pr.1.user self.quiet self.interactive
      pr.1.psqlKwargs

/-- C3 (witness): the amended statement on the concrete failing-probe
environment. -/
theorem C3_witness :
    PGSU.determine_setup envNoPsyco pgsuAlice
      = (true, { pgsuAlice with
                  dsn := { DEFAULT_DSN with user := some "bob" }
                  connection_mode := PostgresConnectionMode.PSQL }, 0) :=
  (C3_subprocess_fallback_amended envNoPsyco pgsuAlice
    ({ DEFAULT_DSN with user := some "bob" }, false) rfl rfl rfl rfl).1

/-- C7: with the default retry configuration (`setup_fail_counter = 0`,
`setup_max_tries = 1`) and a disconnected session, resolution invokes the
fallback callback at most once — regardless of what the callback returns —
and when it returns failure the mode is still DISCONNECTED and the counter
equals the number of failed runs (callback invocations plus one), so the
retry loop is bounded. -/
theorem C7_bounded_retries (env : Env) (self : PGSU)
    (hc : self.setup_fail_counter = 0) (hm : self.setup_max_tries = 1)
    (hd : self.connection_mode = PostgresConnectionMode.DISCONNECTED) :
    (PGSU.determine_setup env self).2.2 ≤ 1
    ∧ ((PGSU.determine_setup env self).1 = false →
        (PGSU.determine_setup env self).2.1.connection_mode
          = PostgresConnectionMode.DISCONNECTED
        ∧ (PGSU.determine_setup env self).2.1.setup_fail_counter
          = (PGSU.determine_setup env self).2.2 + 1) := by
  constructor
  · have h := determine_setup_calls_le env self
    rw [hc, hm] at h
    simpa using h
  · intro hfalse
    have h := determine_setup_false_state env self hfalse
    refine ⟨by rw [h.1, hd], by rw [h.2, hc]; omega⟩

/-- C7 (witness): the theorem on the environment where nothing works and a
fresh default session (no callback). -/
theorem C7_witness :
    (PGSU.determine_setup envFail pgsuAlice).2.2 ≤ 1
    ∧ ((PGSU.determine_setup envFail pgsuAlice).1 = false →
        (PGSU.determine_setup envFail pgsuAlice).2.1.connection_mode
          = PostgresConnectionMode.DISCONNECTED
        ∧ (PGSU.determine_setup envFail pgsuAlice).2.1.setup_fail_counter
          = (PGSU.determine_setup envFail pgsuAlice).2.2 + 1) :=
  C7_bounded_retries envFail pgsuAlice rfl rfl rfl

/-- C10: in subprocess mode every `execute` call runs `psql` as the fixed
OS user `postgres`: the descriptor's `user` value is bound to the named
parameter of `_execute_psql` and silently shadowed by
`kwargs.pop('user', 'postgres')`, which always yields the default, so the
built command line is independent of any user value from the committed
descriptor or per-call overrides. -/
theorem C10_psql_user_fixed (env : Env) (self : PGSU) (command : String)
    (ov : DSNOverride) (u1 u2 : Option String) (q i : Bool) (kw : PsqlKwargs)
    (h : self.connection_mode = PostgresConnectionMode.PSQL) :
    execute_psql env command u1 q i kw = execute_psql env command u2 q i kw
    ∧ (execute_psql env command u1 q i kw).2.su_cmd = ["su", "postgres", "-c"]
    ∧ ((PGSU.execute env self command ov).1.psqlInv).map PsqlInvocation.su_cmd
        = some ["su", "postgres", "-c"] := by
  refine ⟨rfl, execute_psql_su_cmd env command u1 q i kw, ?_⟩
  simp [PGSU.execute, h, execute_psql_su_cmd]

/-- C10 (witness): the theorem on a session committed to subprocess mode,
with two different user values. -/
theorem C10_witness :
    execute_psql envNoPsyco "SELECT 1" (some "alice") true false DEFAULT_DSN.psqlKwargs
      = execute_psql envNoPsyco "SELECT 1" none true false DEFAULT_DSN.psqlKwargs
    ∧ (execute_psql envNoPsyco "SELECT 1" (some "alice") true false
        DEFAULT_DSN.psqlKwargs).2.su_cmd = ["su", "postgres", "-c"]
    ∧ ((PGSU.execute envNoPsyco pgsuSub "SELECT 1" {}).1.psqlInv).map
        PsqlInvocation.su_cmd = some ["su", "postgres", "-c"] :=
  C10_psql_user_fixed envNoPsyco pgsuSub "SELECT 1" {} (some "alice") none true false
    DEFAULT_DSN.psqlKwargs rfl
